import Mathlib

/-!
Verification of the data-derivation / filtering engine of the student
analytics dashboard (src/app.py).

The app is a pandas/streamlit script. We shallowly embed the parts of it
the claims are about:

* a table is a `List Row`; a `Row` carries the raw columns of the CSV,
  with numeric columns as `Option ℚ` (pandas missing values / NaN are
  `none`; defined values are exact rationals);
* `load_data`'s feature engineering (app.py lines 25-30) becomes
  `total_score` and `risk_score`.  `DataFrame.mean(axis=1)` has
  `skipna=True` by default, so it averages over the scores that are
  present and is NaN only when all of them are missing; the arithmetic
  formula for `risk_score` propagates NaN from any operand;
* the filter mask (app.py lines 56-61) becomes `rowPred` /
  `filtered_df`.  `Series.between` is inclusive on both ends and is
  `False` on NaN; boolean-mask selection keeps the original row order;
* the tab-2 grouped means (lines 111-112) become `mean_scores`, built
  from the generic `groupMeans`; `groupby(...).mean()` skips NaN within
  each group;
* the tab-2 correlation matrix (line 131) becomes `corr_matrix`
  (pairwise Pearson over the rows where both columns are defined,
  NaN when there are no such rows or a variance vanishes);
* the tab-4 top-10 table (lines 176-180) becomes `high_risk` /
  `high_risk_display`.  `nlargest(n, col)` drops NaN rows, sorts
  descending with ties kept in original order (`keep='first'`, stable
  mergesort in pandas' SelectN) and takes `n`; `sort_values(col,
  ascending=False)` is modelled as a stable descending sort with NaN
  rows last (pandas reverses the input and the ascending permutation,
  which preserves the original relative order of equal keys; the
  underlying sort is stable at the sizes involved).
-/

/-- One row of `processed_student_data.csv` together with the columns the
dashboard reads.  Numeric cells are `Option ℚ`: `none` is pandas NaN. -/
structure Row where
  student_id : String
  IQ_test_score : Option ℚ
  English_test_score : Option ℚ
  technical_test_score : Option ℚ
  Soft_skills_Score : Option ℚ
  gpa : Option ℚ
  Result : String
  financial_aid : String
  english_level : String
deriving DecidableEq

/-- The four raw assessment-score cells of a row, in the order they are
listed at app.py line 25. -/
def rawScores (r : Row) : List (Option ℚ) :=
  [r.IQ_test_score, r.English_test_score, r.technical_test_score, r.Soft_skills_Score]

/-- pandas mean with `skipna=True` (the default): the mean of the defined
values, NaN when every value is missing. -/
def meanSkipNa (xs : List (Option ℚ)) : Option ℚ :=
  let vs := xs.filterMap id
  if vs.length = 0 then none else some (vs.sum / vs.length)

/-- app.py lines 25-26: `data[[four scores]].mean(axis=1)`. -/
def total_score (r : Row) : Option ℚ :=
  meanSkipNa (rawScores r)

/-- app.py lines 27-30: the weighted deficit score.  Elementwise pandas
arithmetic propagates NaN, so the result is defined only when all four
raw scores are. -/
def risk_score (r : Row) : Option ℚ :=
  match r.technical_test_score, r.Soft_skills_Score, r.English_test_score,
      r.IQ_test_score with
  | some t, some s, some e, some i =>
      some ((100 - t) * 0.4 + (100 - s) * 0.3 + (100 - e) * 0.2 + (100 - i) * 0.1)
  | _, _, _, _ => none

/-- The sidebar filter state: the four widgets of app.py lines 45-48.
`result_filter` is the multiselect, the two selectboxes use the literal
string `"All"` as their no-constraint sentinel, and the GPA slider yields
the pair `(gpa_lo, gpa_hi)`. -/
structure Criteria where
  result_filter : List String
  financial_filter : String
  english_filter : String
  gpa_lo : ℚ
  gpa_hi : ℚ
deriving DecidableEq

/-- `Series.between(lo, hi)`: inclusive on both endpoints, `False` on a
missing value. -/
def gpaBetween (x : Option ℚ) (lo hi : ℚ) : Bool :=
  match x with
  | none => false
  | some g => decide (lo ≤ g) && decide (g ≤ hi)

/-- The conjunction of the four mask terms of app.py lines 57-60 for one
row. -/
def rowPred (c : Criteria) (r : Row) : Bool :=
  decide (r.Result ∈ c.result_filter)
  && (if c.financial_filter = "All" then true
      else decide (r.financial_aid = c.financial_filter))
  && (if c.english_filter = "All" then true
      else decide (r.english_level = c.english_filter))
  && gpaBetween r.gpa c.gpa_lo c.gpa_hi

/-- app.py lines 56-61: boolean-mask selection `df[mask]`, which keeps
exactly the rows whose mask entry is True, in their original order. -/
def filtered_df (df : List Row) (c : Criteria) : List Row :=
  df.filter (rowPred c)

/-- app.py line 37. -/
def result_order : List String := ["Accepted", "pending", "drop out"]

/-- app.py line 36, as accessors into a row. -/
def score_cols : List (Row → Option ℚ) :=
  [Row.IQ_test_score, Row.English_test_score, Row.technical_test_score,
   Row.Soft_skills_Score]

/-- The rows of one `groupby('Result')` group. -/
def groupRows (df : List Row) (g : String) : List Row :=
  df.filter (fun r => decide (r.Result = g))

/-- Grouped means over the `Result` column: for each key of `order` that
occurs in the table, the skipna mean of every column of `cols` over that
group's rows, emitted in `order`'s sequence.  This is app.py lines
111-112: `available_results` is the comprehension over `result_order`,
and `.groupby('Result')[score_cols].mean().loc[available_results]`
computes the per-group skipna means reindexed in that sequence. -/
def groupMeans (df : List Row) (order : List String) (cols : List (Row → Option ℚ)) :
    List (String × List (Option ℚ)) :=
  (order.filter (fun g => df.any (fun r => decide (r.Result = g)))).map
    (fun g => (g, cols.map (fun col => meanSkipNa ((groupRows df g).map col))))

/-- app.py line 111. -/
def available_results (df : List Row) : List String :=
  result_order.filter (fun g => df.any (fun r => decide (r.Result = g)))

/-- app.py line 112 (the transpose at the end is presentation only). -/
def mean_scores (df : List Row) : List (String × List (Option ℚ)) :=
  groupMeans df result_order score_cols

/-- app.py line 131: the columns fed to `.corr()`. -/
def corrColumns : List (Row → Option ℚ) :=
  score_cols ++ [Row.gpa]

/-- The rows where both columns are defined, as pairs (pandas `.corr()`
uses pairwise-complete observations). -/
def pairedVals (f g : Row → Option ℚ) (df : List Row) : List (ℚ × ℚ) :=
  df.filterMap (fun r =>
    match f r, g r with
    | some a, some b => some (a, b)
    | _, _ => none)

/-- One entry of the Pearson correlation matrix: NaN (`none`) when there
are no pairwise-complete rows or one of the two sample variances is
zero, otherwise `cov / sqrt(varx * vary)`. -/
noncomputable def corrEntry (f g : Row → Option ℚ) (df : List Row) : Option ℝ :=
  let ps := pairedVals f g df
  let n : ℚ := ps.length
  if ps.length = 0 then none else
  let mx := (ps.map Prod.fst).sum / n
  let my := (ps.map Prod.snd).sum / n
  let sxx : ℚ := (ps.map (fun p => (p.1 - mx) ^ 2)).sum
  let syy : ℚ := (ps.map (fun p => (p.2 - my) ^ 2)).sum
  let sxy : ℚ := (ps.map (fun p => (p.1 - mx) * (p.2 - my))).sum
  if sxx = 0 ∨ syy = 0 then none
  else some ((sxy : ℝ) / Real.sqrt ((sxx : ℝ) * (syy : ℝ)))

/-- app.py line 131: `filtered_df[score_cols + ['gpa']].corr()`. -/
noncomputable def corr_matrix (df : List Row) : List (List (Option ℝ)) :=
  corrColumns.map (fun f => corrColumns.map (fun g => corrEntry f g df))

/-- The sort key used by tab 4; rows reaching the sort have a defined
`risk_score`, so the default is never observed. -/
def riskKey (r : Row) : ℚ :=
  (risk_score r).getD 0

/-- Descending-by-`risk_score` ordering on rows. -/
def riskRel (a b : Row) : Prop :=
  riskKey b ≤ riskKey a

instance : DecidableRel riskRel :=
  fun a b => inferInstanceAs (Decidable (riskKey b ≤ riskKey a))

instance : IsTotal Row riskRel :=
  ⟨fun a b => le_total (riskKey b) (riskKey a)⟩

instance : IsTrans Row riskRel :=
  ⟨fun _ _ _ h1 h2 => le_trans h2 h1⟩

/-- Stable descending sort by `risk_score` (insertion sort is stable:
`orderedInsert` places a later row after every earlier row with an equal
key). -/
def sortDescRisk (df : List Row) : List Row :=
  List.insertionSort riskRel df

/-- The rows whose `risk_score` is defined (pandas `nlargest` drops NaN
rows before selecting). -/
def definedRisk (df : List Row) : List Row :=
  df.filter (fun r => (risk_score r).isSome)

/-- `DataFrame.nlargest(n, 'risk_score')` with the default
`keep='first'`: drop the NaN rows, sort descending keeping equal keys in
original order, take the first `n`. -/
def nlargestRisk (n : ℕ) (df : List Row) : List Row :=
  (sortDescRisk (definedRisk df)).take n

/-- app.py line 176. -/
def high_risk (df : List Row) : List Row :=
  nlargestRisk 10 df

/-- `sort_values('risk_score', ascending=False)` with the default
`na_position='last'`: a stable descending sort of the defined rows
followed by the NaN rows in their original order. -/
def sortValuesDescRisk (df : List Row) : List Row :=
  sortDescRisk (df.filter (fun r => (risk_score r).isSome))
    ++ df.filter (fun r => !(risk_score r).isSome)

/-- app.py lines 178-180: the displayed top-10 table (the column
projection does not affect which rows appear or their order). -/
def high_risk_display (df : List Row) : List Row :=
  sortValuesDescRisk (high_risk df)

/-- The general top-N selection the spec calls `topN(T, n, risk_score,
desc=true)`, as the code realises it: `nlargest` then the display sort. -/
def topNRisk (n : ℕ) (df : List Row) : List Row :=
  sortValuesDescRisk (nlargestRisk n df)

/-- A row whose four raw scores are all 80 (the spec's scenario row). -/
def row80 : Row :=
  { student_id := "s80", IQ_test_score := some 80, English_test_score := some 80,
    technical_test_score := some 80, Soft_skills_Score := some 80,
    gpa := some 3, Result := "Accepted", financial_aid := "No", english_level := "B2" }

/-- A row whose IQ score is missing while the other three scores are 90. -/
def rowMissingIQ : Row :=
  { student_id := "sMiss", IQ_test_score := none, English_test_score := some 90,
    technical_test_score := some 90, Soft_skills_Score := some 90,
    gpa := some 3, Result := "Accepted", financial_aid := "No", english_level := "B2" }

/-- A row with every raw score missing: both derived metrics are NaN. -/
def rowAllMissing : Row :=
  { student_id := "sNaN", IQ_test_score := none, English_test_score := none,
    technical_test_score := none, Soft_skills_Score := none,
    gpa := some 2, Result := "pending", financial_aid := "No", english_level := "B1" }

/-- A row with a missing GPA cell. -/
def rowNoGpa : Row :=
  { student_id := "sNoGpa", IQ_test_score := some 70, English_test_score := some 70,
    technical_test_score := some 70, Soft_skills_Score := some 70,
    gpa := none, Result := "Accepted", financial_aid := "No", english_level := "B2" }

/-- A row whose only distinguishing datum is its gpa cell; used for the
GPA-range scenario table. -/
def gpaRow (id : String) (g : ℚ) : Row :=
  { student_id := id, IQ_test_score := some 80, English_test_score := some 80,
    technical_test_score := some 80, Soft_skills_Score := some 80,
    gpa := some g, Result := "Accepted", financial_aid := "No", english_level := "B2" }

/-- The GPA-scenario table: gpa cells 1.5, 2.0, 3.0, 4.0. -/
def gpaScenarioTable : List Row :=
  [gpaRow "g15" 1.5, gpaRow "g20" 2, gpaRow "g30" 3, gpaRow "g40" 4]

/-- Criteria with every widget at its default: all outcomes selected,
both selectboxes on "All", the slider at (0.0, 4.0). -/
def defaultCriteria : Criteria :=
  { result_filter := result_order, financial_filter := "All",
    english_filter := "All", gpa_lo := 0, gpa_hi := 4 }

/-- The defaults with the slider moved to (2.0, 4.0). -/
def gpaScenarioCriteria : Criteria :=
  { defaultCriteria with gpa_lo := 2 }

/-- Criteria whose slider pair is inverted (lo 3, hi 1). -/
def invertedCriteria : Criteria :=
  { defaultCriteria with gpa_lo := 3, gpa_hi := 1 }

theorem rowPred_iff (c : Criteria) (r : Row) :
    rowPred c r = true ↔
      r.Result ∈ c.result_filter
      ∧ (c.financial_filter ≠ "All" → r.financial_aid = c.financial_filter)
      ∧ (c.english_filter ≠ "All" → r.english_level = c.english_filter)
      ∧ ∃ g : ℚ, r.gpa = some g ∧ c.gpa_lo ≤ g ∧ g ≤ c.gpa_hi := by
  unfold rowPred
  cases hg : r.gpa with
  | none => simp [gpaBetween, hg]
  | some g =>
    by_cases hf : c.financial_filter = "All" <;>
      by_cases he : c.english_filter = "All" <;>
        simp [gpaBetween, hg, hf, he, and_assoc]

theorem mem_filtered_df (df : List Row) (c : Criteria) (r : Row) :
    r ∈ filtered_df df c ↔
      r ∈ df
      ∧ r.Result ∈ c.result_filter
      ∧ (c.financial_filter ≠ "All" → r.financial_aid = c.financial_filter)
      ∧ (c.english_filter ≠ "All" → r.english_level = c.english_filter)
      ∧ ∃ g : ℚ, r.gpa = some g ∧ c.gpa_lo ≤ g ∧ g ≤ c.gpa_hi := by
  rw [filtered_df, List.mem_filter, rowPred_iff]

theorem g30_mem_filtered :
    gpaRow "g30" 3 ∈ filtered_df gpaScenarioTable gpaScenarioCriteria := by
  refine (mem_filtered_df _ _ _).mpr ⟨?_, ?_, ?_, ?_, 3, rfl, ?_, ?_⟩ <;>
    simp [gpaScenarioTable, gpaScenarioCriteria, defaultCriteria, gpaRow, result_order] <;>
      norm_num

/-- C3: the filtered table consists exactly of the input rows that satisfy
the conjunction of the four predicates — Result membership, financial_aid
equality unless "All", english_level equality unless "All", and gpa inside
the closed interval — in their original order; and the scenario
gpaRange=(2.0,4.0) over gpas [1.5, 2.0, 3.0, 4.0] keeps exactly
[2.0, 3.0, 4.0]. -/
theorem C3_filter_conjunction :
    (∀ (df : List Row) (c : Criteria),
      List.Sublist (filtered_df df c) df
      ∧ ∀ r : Row, r ∈ filtered_df df c ↔
          r ∈ df
          ∧ r.Result ∈ c.result_filter
          ∧ (c.financial_filter ≠ "All" → r.financial_aid = c.financial_filter)
          ∧ (c.english_filter ≠ "All" → r.english_level = c.english_filter)
          ∧ ∃ g : ℚ, r.gpa = some g ∧ c.gpa_lo ≤ g ∧ g ≤ c.gpa_hi)
    ∧ filtered_df gpaScenarioTable gpaScenarioCriteria
        = [gpaRow "g20" 2, gpaRow "g30" 3, gpaRow "g40" 4] := by
  refine ⟨fun df c => ⟨List.filter_sublist df, fun r => mem_filtered_df df c r⟩, ?_⟩
  simp [filtered_df, gpaScenarioTable, gpaScenarioCriteria, defaultCriteria,
    rowPred, gpaBetween, gpaRow, result_order, List.filter]
  norm_num

/-- C4 counterexample: with the inverted slider pair (lo = 3, hi = 1) the
filter does not fail — it returns a result, namely the empty table. -/
theorem C4_counterexample :
    invertedCriteria.gpa_hi < invertedCriteria.gpa_lo
    ∧ filtered_df gpaScenarioTable invertedCriteria = [] := by
  constructor
  · norm_num [invertedCriteria, defaultCriteria]
  · simp [filtered_df, gpaScenarioTable, invertedCriteria, defaultCriteria,
      rowPred, gpaBetween, gpaRow, result_order, List.filter]
    norm_num

/-- C4 amended: the filter never signals an error.  When gpaRange has
lo > hi no gpa can satisfy the inclusive between predicate, so the filter
returns the empty table; an empty match set is likewise just the empty
table. -/
theorem C4_amended (df : List Row) (c : Criteria) (h : c.gpa_hi < c.gpa_lo) :
    filtered_df df c = [] := by
  rw [filtered_df, List.filter_eq_nil_iff]
  intro r _
  intro hp
  obtain ⟨_, _, _, g, _, hg1, hg2⟩ := (rowPred_iff c r).mp hp
  exact absurd (le_trans hg1 hg2) (not_le.mpr h)

/-- C4 witness: a concrete inverted range yields the empty table. -/
theorem C4_witness : filtered_df [rowNoGpa, row80] invertedCriteria = [] :=
  C4_amended _ _ (by norm_num [invertedCriteria, defaultCriteria])

/-- C5: filtering is idempotent — refiltering an already filtered table
with the same criteria returns the identical table. -/
theorem C5_idempotent (df : List Row) (c : Criteria) :
    filtered_df (filtered_df df c) c = filtered_df df c := by
  simp [filtered_df, List.filter_filter]

/-- C6: filtering is monotonic in the GPA dimension — widening the gpa
interval (same criteria otherwise) never loses a row of the narrower
result. -/
theorem C6_gpa_monotonic (df : List Row) (c : Criteria) (lo hi : ℚ)
    (hlo : lo ≤ c.gpa_lo) (hhi : c.gpa_hi ≤ hi) (r : Row)
    (hr : r ∈ filtered_df df c) :
    r ∈ filtered_df df { c with gpa_lo := lo, gpa_hi := hi } := by
  rw [mem_filtered_df] at hr ⊢
  obtain ⟨h1, h2, h3, h4, g, hg, hg1, hg2⟩ := hr
  exact ⟨h1, h2, h3, h4, g, hg, le_trans hlo hg1, le_trans hg2 hhi⟩

/-- C6 witness: widening the scenario range (2.0, 4.0) to (0.0, 4.0)
keeps the gpa-3.0 row. -/
theorem C6_witness :
    gpaRow "g30" 3 ∈ filtered_df gpaScenarioTable
      { gpaScenarioCriteria with gpa_lo := 0, gpa_hi := 4 } :=
  C6_gpa_monotonic gpaScenarioTable gpaScenarioCriteria 0 4
    (by norm_num [gpaScenarioCriteria, defaultCriteria])
    (by norm_num [gpaScenarioCriteria, defaultCriteria])
    (gpaRow "g30" 3) g30_mem_filtered

/-- C10: the GPA predicate is never vacuous — any row of any filtered
view has a defined gpa lying inside the chosen interval; in particular a
row with a missing gpa is excluded even by the widest selectable range
(0.0, 4.0). -/
theorem C10_missing_gpa_excluded :
    (∀ (df : List Row) (c : Criteria) (r : Row), r ∈ filtered_df df c →
      ∃ g : ℚ, r.gpa = some g ∧ c.gpa_lo ≤ g ∧ g ≤ c.gpa_hi)
    ∧ filtered_df [rowNoGpa] defaultCriteria = [] := by
  constructor
  · intro df c r h
    exact ((mem_filtered_df df c r).mp h).2.2.2.2
  · simp [filtered_df, rowNoGpa, defaultCriteria, rowPred, gpaBetween,
      result_order, List.filter]

/-- C10 witness: the gpa-3.0 row of the scenario view indeed carries a
defined gpa inside the chosen interval. -/
theorem C10_witness :
    ∃ g : ℚ, (gpaRow "g30" 3).gpa = some g
      ∧ gpaScenarioCriteria.gpa_lo ≤ g ∧ g ≤ gpaScenarioCriteria.gpa_hi :=
  C10_missing_gpa_excluded.1 gpaScenarioTable gpaScenarioCriteria
    (gpaRow "g30" 3) g30_mem_filtered

/-- C1 counterexample: a row whose IQ score is missing and whose other
three scores are 90 gets the defined total_score 90 (the mean over the
remaining scores), contradicting "total_score is undefined iff at least
one raw score is undefined". -/
theorem C1_counterexample :
    rowMissingIQ.IQ_test_score = none ∧ total_score rowMissingIQ = some 90 := by
  constructor
  · rfl
  · simp [total_score, rowMissingIQ, rawScores, meanSkipNa, List.filterMap]
    norm_num

/-- C1 amended: total_score is the arithmetic mean of the raw scores that
are defined (pandas mean with skipna): it is undefined iff all four raw
scores are undefined, and for every missing pattern with at least one
score defined it is the sum of the defined scores divided by their count
(the list of defined scores is spelled as the concatenation of the four
cells' Option.toList, so every pattern — none, one, two or three cells
missing — is covered; missing inputs are skipped, never treated as
zero); in particular with all four defined it is their four-way mean. -/
theorem C1_amended (r : Row) :
    (total_score r = none ↔
      r.IQ_test_score = none ∧ r.English_test_score = none
        ∧ r.technical_test_score = none ∧ r.Soft_skills_Score = none)
    ∧ (∀ vs : List ℚ,
        vs = r.IQ_test_score.toList ++ r.English_test_score.toList
          ++ r.technical_test_score.toList ++ r.Soft_skills_Score.toList →
        vs ≠ [] →
        total_score r = some (vs.sum / vs.length))
    ∧ (∀ a b c d : ℚ, r.IQ_test_score = some a → r.English_test_score = some b →
        r.technical_test_score = some c → r.Soft_skills_Score = some d →
        total_score r = some ((a + b + c + d) / 4)) := by
  refine ⟨?_, ?_, ?_⟩
  · cases h1 : r.IQ_test_score <;> cases h2 : r.English_test_score <;>
      cases h3 : r.technical_test_score <;> cases h4 : r.Soft_skills_Score <;>
        simp [total_score, rawScores, meanSkipNa, h1, h2, h3, h4, List.filterMap]
  · intro vs hvs hne
    subst hvs
    cases h1 : r.IQ_test_score <;> cases h2 : r.English_test_score <;>
      cases h3 : r.technical_test_score <;> cases h4 : r.Soft_skills_Score <;>
        simp [total_score, rawScores, meanSkipNa, h1, h2, h3, h4,
          List.filterMap] at hne ⊢
  · intro a b c d h1 h2 h3 h4
    simp [total_score, rawScores, meanSkipNa, h1, h2, h3, h4, List.filterMap]
    ring

/-- C1 witness: the IQ-missing row evaluates through the amended
statement's universal skipna clause — its defined scores are the three
90s and its total_score is their mean. -/
theorem C1_witness :
    total_score rowMissingIQ
      = some (([90, 90, 90] : List ℚ).sum / ([90, 90, 90] : List ℚ).length) :=
  (C1_amended rowMissingIQ).2.1 [90, 90, 90] (by simp [rowMissingIQ]) (by simp)

/-- C2: for a row with all four raw scores defined, risk_score is the
weighted deficit 0.4*(100-technical) + 0.3*(100-soft) + 0.2*(100-english)
+ 0.1*(100-IQ); the all-80 row has total_score 80 and risk_score 20. -/
theorem C2_risk_formula :
    (∀ (r : Row) (i e t s : ℚ), r.IQ_test_score = some i →
      r.English_test_score = some e → r.technical_test_score = some t →
      r.Soft_skills_Score = some s →
      risk_score r
        = some (0.4 * (100 - t) + 0.3 * (100 - s) + 0.2 * (100 - e) + 0.1 * (100 - i)))
    ∧ total_score row80 = some 80 ∧ risk_score row80 = some 20 := by
  refine ⟨?_, ?_, ?_⟩
  · intro r i e t s h1 h2 h3 h4
    simp [risk_score, h1, h2, h3, h4]
    ring
  · simp [total_score, row80, rawScores, meanSkipNa, List.filterMap]
    norm_num
  · simp [risk_score, row80]
    norm_num

/-- C2 witness: the formula instantiated at the all-80 row. -/
theorem C2_witness :
    risk_score row80
      = some (0.4 * (100 - 80) + 0.3 * (100 - 80) + 0.2 * (100 - 80) + 0.1 * (100 - 80)) :=
  C2_risk_formula.1 row80 80 80 80 80 rfl rfl rfl rfl

/-- C8: groupMeans emits exactly one group per key that appears both in
the table and in the caller-supplied order, in the order's sequence,
never fabricating a group absent from the table, and each emitted group
carries the (skipna) arithmetic mean of every value column over that
group's rows. -/
theorem C8_groupMeans (df : List Row) (order : List String)
    (cols : List (Row → Option ℚ)) :
    (groupMeans df order cols).map Prod.fst
        = order.filter (fun g => df.any (fun r => decide (r.Result = g)))
    ∧ ∀ g ms, (g, ms) ∈ groupMeans df order cols →
        g ∈ order ∧ (∃ r ∈ df, r.Result = g)
        ∧ ms = cols.map (fun col =>
            let vs := ((groupRows df g).map col).filterMap id
            if vs.length = 0 then none else some (vs.sum / (vs.length : ℚ))) := by
  constructor
  · simp [groupMeans, List.map_map, Function.comp_def]
  · intro g ms hm
    simp only [groupMeans, List.mem_map, List.mem_filter, Prod.mk.injEq] at hm
    obtain ⟨g', ⟨hgo, hany⟩, hg, hms⟩ := hm
    subst hg
    refine ⟨hgo, ?_, ?_⟩
    · simpa using List.any_eq_true.mp hany
    · rw [← hms]
      rfl

/-- C8 witness: on the one-row all-80 table the single emitted group is
"Accepted", present in both the table and the order, with mean 80 in
every score column. -/
theorem C8_witness :
    "Accepted" ∈ result_order
    ∧ (∃ r ∈ [row80], r.Result = "Accepted")
    ∧ [some (80 : ℚ), some 80, some 80, some 80] = score_cols.map (fun col =>
        let vs := ((groupRows [row80] "Accepted").map col).filterMap id
        if vs.length = 0 then none else some (vs.sum / (vs.length : ℚ))) :=
  (C8_groupMeans [row80] result_order score_cols).2 "Accepted"
    [some 80, some 80, some 80, some 80]
    (by simp [groupMeans, result_order, row80, score_cols, groupRows,
          meanSkipNa, List.filter, List.filterMap])

/-- C9: on the empty table all three aggregation helpers return an
empty or all-undefined result: the grouped means table is empty, every
correlation entry is NaN, and the top-10 table is empty. -/
theorem C9_empty_table :
    mean_scores [] = []
    ∧ corr_matrix [] = corrColumns.map (fun _ => corrColumns.map (fun _ => none))
    ∧ high_risk_display [] = [] := by
  refine ⟨?_, ?_, ?_⟩
  · simp [mean_scores, groupMeans, result_order]
  · simp [corr_matrix, corrColumns, score_cols, corrEntry, pairedVals]
  · simp [high_risk_display, high_risk, nlargestRisk, sortValuesDescRisk,
      sortDescRisk, definedRisk, List.insertionSort]

theorem riskKey_filter_orderedInsert (a : Row) (l : List Row) (q : ℚ) :
    (List.orderedInsert riskRel a l).filter (fun r => decide (riskKey r = q))
      = if riskKey a = q
        then a :: l.filter (fun r => decide (riskKey r = q))
        else l.filter (fun r => decide (riskKey r = q)) := by
  induction l with
  | nil =>
    by_cases hq : riskKey a = q <;> simp [List.orderedInsert, List.filter, hq]
  | cons b t ih =>
    rw [List.orderedInsert]
    by_cases hab : riskRel a b
    · rw [if_pos hab]
      by_cases hq : riskKey a = q <;> simp [List.filter_cons, hq]
    · rw [if_neg hab]
      have hba : riskKey a < riskKey b := lt_of_not_le (fun h => hab h)
      by_cases hbq : riskKey b = q
      · have haq : ¬riskKey a = q := by rw [← hbq]; exact ne_of_lt hba
        simp [List.filter_cons, hbq, haq, ih]
      · by_cases haq : riskKey a = q <;> simp [List.filter_cons, hbq, haq, ih]

theorem riskKey_filter_insertionSort (l : List Row) (q : ℚ) :
    (List.insertionSort riskRel l).filter (fun r => decide (riskKey r = q))
      = l.filter (fun r => decide (riskKey r = q)) := by
  induction l with
  | nil => rfl
  | cons b t ih =>
    rw [List.insertionSort, riskKey_filter_orderedInsert]
    by_cases hq : riskKey b = q <;> simp [List.filter_cons, hq, ih]

theorem mem_nlargestRisk_isSome {df : List Row} {n : ℕ} {r : Row}
    (h : r ∈ nlargestRisk n df) : (risk_score r).isSome = true := by
  have h2 : r ∈ sortDescRisk (definedRisk df) := List.mem_of_mem_take h
  have h3 : r ∈ definedRisk df :=
    (List.perm_insertionSort riskRel (definedRisk df)).mem_iff.mp h2
  exact (List.mem_filter.mp h3).2

theorem sorted_nlargestRisk (n : ℕ) (df : List Row) :
    List.Sorted riskRel (nlargestRisk n df) :=
  (List.sorted_insertionSort riskRel (definedRisk df)).sublist
    (List.take_sublist n (sortDescRisk (definedRisk df)))

theorem topNRisk_eq_nlargestRisk (n : ℕ) (df : List Row) :
    topNRisk n df = nlargestRisk n df := by
  unfold topNRisk sortValuesDescRisk
  have h1 : (nlargestRisk n df).filter (fun r => (risk_score r).isSome)
      = nlargestRisk n df :=
    List.filter_eq_self.mpr fun r hr => mem_nlargestRisk_isSome hr
  have h2 : (nlargestRisk n df).filter (fun r => !(risk_score r).isSome) = [] :=
    List.filter_eq_nil_iff.mpr fun r hr => by simp [mem_nlargestRisk_isSome hr]
  rw [h1, h2, List.append_nil]
  exact (sorted_nlargestRisk n df).insertionSort_eq

/-- C7 counterexample: a one-row table whose single row has an undefined
risk_score.  The claim predicts a result of length min(10, 1) = 1, but
`nlargest` drops NaN rows and the displayed table is empty. -/
theorem C7_counterexample :
    (high_risk_display [rowAllMissing]).length = 0
    ∧ [rowAllMissing].length = 1 := by
  constructor
  · simp [high_risk_display, high_risk, nlargestRisk, sortValuesDescRisk,
      sortDescRisk, definedRisk, risk_score, rowAllMissing,
      List.insertionSort, List.filter]
  · rfl

/-- C7 amended: the displayed table equals `nlargest` applied to the rows
whose risk_score is defined.  For every table and every n: the result has
length min(n, number of rows with a defined risk_score); it is sorted
descending by risk_score; all of its rows have a defined risk_score;
together with the dropped suffix it is a permutation of the defined rows;
every kept row's key is at least every dropped row's key; and the sort is
stable — for each key value, the kept rows with that key are exactly the
first such rows of the table, in their original order. -/
theorem C7_topn (df : List Row) (n : ℕ) :
    high_risk_display df = topNRisk 10 df
    ∧ (topNRisk n df).length = min n (definedRisk df).length
    ∧ List.Sorted riskRel (topNRisk n df)
    ∧ (∀ r, r ∈ topNRisk n df → (risk_score r).isSome = true)
    ∧ List.Perm (topNRisk n df ++ (sortDescRisk (definedRisk df)).drop n)
        (definedRisk df)
    ∧ (∀ r s, r ∈ topNRisk n df → s ∈ (sortDescRisk (definedRisk df)).drop n →
        riskKey s ≤ riskKey r)
    ∧ ∀ q : ℚ,
        (topNRisk n df).filter (fun r => decide (riskKey r = q))
          ++ ((sortDescRisk (definedRisk df)).drop n).filter
              (fun r => decide (riskKey r = q))
        = (definedRisk df).filter (fun r => decide (riskKey r = q)) := by
  have he : topNRisk n df = nlargestRisk n df := topNRisk_eq_nlargestRisk n df
  refine ⟨rfl, ?_, ?_, ?_, ?_, ?_, ?_⟩
  · rw [he, nlargestRisk, List.length_take, sortDescRisk,
      (List.perm_insertionSort riskRel (definedRisk df)).length_eq]
  · rw [he]
    exact sorted_nlargestRisk n df
  · intro r hr
    exact mem_nlargestRisk_isSome (he ▸ hr)
  · rw [he, nlargestRisk, List.take_append_drop]
    exact List.perm_insertionSort riskRel (definedRisk df)
  · intro r s hr hs
    have hr2 : r ∈ nlargestRisk n df := he ▸ hr
    exact (List.sorted_insertionSort riskRel
      (definedRisk df)).rel_of_mem_take_of_mem_drop hr2 hs
  · intro q
    rw [he, nlargestRisk, ← List.filter_append, List.take_append_drop]
    exact riskKey_filter_insertionSort (definedRisk df) q

/-- C7 witness: on the one-row all-80 table the kept row is in the
display and its risk_score is defined. -/
theorem C7_witness : (risk_score row80).isSome = true :=
  (C7_topn [row80] 10).2.2.2.1 row80 (by
    rw [topNRisk_eq_nlargestRisk]
    simp [nlargestRisk, sortDescRisk, definedRisk, risk_score, row80,
      List.insertionSort, List.orderedInsert, List.filter])
